import Mathlib

/-!
Verification of the environment configuration artifact of the
coffee_shop_fullstack front end
(`src/frontend/src/environments/environment.ts`).

The source is a single exported object literal.  We embed it as a Lean
structure whose fields mirror the object, together with a small JSON-like
value type used to state the shape and serialization round-trip
properties.
-/

/-- The nested `auth0` record of the exported environment object. -/
structure Auth0Config where
  url : String
  audience : String
  clientId : String
  callbackURL : String
deriving DecidableEq, Repr

/-- The shape of the exported environment object. -/
structure EnvironmentConfig where
  production : Bool
  apiServerUrl : String
  auth0 : Auth0Config
deriving DecidableEq, Repr

/-- The exported `environment` constant, field for field from
`src/frontend/src/environments/environment.ts`. -/
def environment : EnvironmentConfig :=
  { production := false
    apiServerUrl := "http://127.0.0.1:5000"
    auth0 :=
      { url := "dev-6wikmw4d.us.auth0.com"
        audience := "coffee_shop"
        clientId := "I0sxOj09Gcl40n2FYKcZZuiN0HA9US1b"
        callbackURL := "http://localhost:8100" } }

/-- The read accessor: a consumer importing the module and reading the
exported binding obtains the populated configuration value.  The artifact
has no logic, so the accessor ignores its argument. -/
def readEnvironment : Unit → EnvironmentConfig := fun _ => environment

/-- A JSON-like transport value, the target of serialization. -/
inductive Jval where
  | jnull : Jval
  | jbool : Bool → Jval
  | jstr : String → Jval
  | jobj : List (String × Jval) → Jval

/-- Look up a field of a JSON object by name. -/
def Jval.getField : Jval → String → Option Jval
  | .jobj fs, k => fs.lookup k
  | _, _ => none

/-- Extract a JSON string, failing on any other kind of value
(in particular on `jnull`). -/
def Jval.asStr : Jval → Option String
  | .jstr s => some s
  | _ => none

/-- Extract a JSON boolean, failing on any other kind of value
(in particular on `jnull`). -/
def Jval.asBool : Jval → Option Bool
  | .jbool b => some b
  | _ => none

/-- Serialize the `auth0` sub-record to a JSON object with its four
declared fields. -/
def serializeAuth0 (a : Auth0Config) : Jval :=
  .jobj
    [ ("url", .jstr a.url)
    , ("audience", .jstr a.audience)
    , ("clientId", .jstr a.clientId)
    , ("callbackURL", .jstr a.callbackURL) ]

/-- Serialize an environment configuration to a JSON object with the three
declared top-level fields. -/
def serialize (e : EnvironmentConfig) : Jval :=
  .jobj
    [ ("production", .jbool e.production)
    , ("apiServerUrl", .jstr e.apiServerUrl)
    , ("auth0", serializeAuth0 e.auth0) ]

/-- Parse the `auth0` sub-record back from a JSON value, requiring every
declared field to be present and a string. -/
def parseAuth0 (j : Jval) : Option Auth0Config := do
  let url ← (← j.getField "url").asStr
  let audience ← (← j.getField "audience").asStr
  let clientId ← (← j.getField "clientId").asStr
  let callbackURL ← (← j.getField "callbackURL").asStr
  pure { url := url, audience := audience, clientId := clientId,
         callbackURL := callbackURL }

/-- Parse an environment configuration back from a JSON value, requiring
every declared field to be present and of its declared type. -/
def parse (j : Jval) : Option EnvironmentConfig := do
  let production ← (← j.getField "production").asBool
  let apiServerUrl ← (← j.getField "apiServerUrl").asStr
  let auth0 ← parseAuth0 (← j.getField "auth0")
  pure { production := production, apiServerUrl := apiServerUrl,
         auth0 := auth0 }

/-- Decide whether a JSON value has exactly the declared shape of the
environment object: a boolean `production`, a string `apiServerUrl`, and a
nested `auth0` object with string fields `url`, `audience`, `clientId` and
`callbackURL`; a `jnull` in any position is rejected. -/
def hasDeclaredShape (j : Jval) : Bool :=
  match j with
  | .jobj
      [ ("production", .jbool _)
      , ("apiServerUrl", .jstr _)
      , ("auth0", .jobj
          [ ("url", .jstr _)
          , ("audience", .jstr _)
          , ("clientId", .jstr _)
          , ("callbackURL", .jstr _) ]) ] => true
  | _ => false

/-- Whether string `s` begins with string `p`, computed on the underlying
character lists. -/
def strBeginsWith (s p : String) : Bool := p.data.isPrefixOf s.data

/-- Whether string `s` finishes with string `p`, computed on the
underlying character lists. -/
def strFinishesWith (s p : String) : Bool := p.data.isSuffixOf s.data

/-- C1: reading `apiServerUrl` of the exported environment configuration
returns exactly the string "http://127.0.0.1:5000". -/
theorem apiServerUrl_value :
    environment.apiServerUrl = "http://127.0.0.1:5000" := rfl

/-- C2: the exported environment configuration has exactly the declared
shape: its serialized JSON image is an object with a boolean `production`,
a string `apiServerUrl`, and a nested `auth0` object with string fields
`url`, `audience`, `clientId` and `callbackURL`, with no null in any
field. -/
theorem environment_has_declared_shape :
    hasDeclaredShape (serialize environment) = true := by decide

/-- C3: every string field of the exported environment configuration is a
non-empty string. -/
theorem environment_string_fields_nonempty :
    environment.apiServerUrl ≠ "" ∧
    environment.auth0.url ≠ "" ∧
    environment.auth0.audience ≠ "" ∧
    environment.auth0.clientId ≠ "" ∧
    environment.auth0.callbackURL ≠ "" := by decide

/-- C4: reading `production` of the exported environment configuration
returns exactly the boolean `false`. -/
theorem production_value : environment.production = false := rfl

/-- C5: reading `auth0.audience` of the exported environment configuration
returns exactly the string "coffee_shop". -/
theorem auth0_audience_value :
    environment.auth0.audience = "coffee_shop" := rfl

/-- C6: serializing the exported environment configuration to the
transport format and parsing the result back yields a value deep-equal to
the original; this holds for every configuration value, and in particular
for the exported one. -/
theorem parse_serialize_roundtrip :
    (∀ e : EnvironmentConfig, parse (serialize e) = some e) ∧
    parse (serialize environment) = some environment := by
  constructor
  · intro e
    rfl
  · rfl

/-- C7: any two reads of the exported environment configuration within a
single process return identical values: the read accessor is a pure
function of no information, so its results at any two call sites
coincide. -/
theorem readEnvironment_deterministic :
    ∀ u v : Unit, readEnvironment u = readEnvironment v := by
  intro u v
  rfl

/-- C8: reading the environment configuration has no error conditions: the
read accessor is total, and at every call it returns the populated
configuration value, never an absent one — parsing its serialized image
never yields `none` either. -/
theorem readEnvironment_never_fails :
    (∀ u : Unit, readEnvironment u = environment) ∧
    (∀ u : Unit, parse (serialize (readEnvironment u)) ≠ none) := by
  constructor
  · intro u
    rfl
  · intro u
    simp [readEnvironment, parse, serialize, serializeAuth0, parseAuth0,
          Jval.getField, Jval.asBool, Jval.asStr, List.lookup]

/-- C9: the remaining `auth0` fields hold their fixed literal values:
`url` is "dev-6wikmw4d.us.auth0.com", `clientId` is
"I0sxOj09Gcl40n2FYKcZZuiN0HA9US1b", and `callbackURL` is
"http://localhost:8100". -/
theorem auth0_literal_values :
    environment.auth0.url = "dev-6wikmw4d.us.auth0.com" ∧
    environment.auth0.clientId = "I0sxOj09Gcl40n2FYKcZZuiN0HA9US1b" ∧
    environment.auth0.callbackURL = "http://localhost:8100" :=
  ⟨rfl, rfl, rfl⟩

/-- C10: `auth0.url` is a bare domain carrying no URL scheme, while
`apiServerUrl` and `auth0.callbackURL` are absolute URLs starting with
"http://" and ending without a trailing slash. -/
theorem url_scheme_shape :
    strBeginsWith environment.auth0.url "http://" = false ∧
    strBeginsWith environment.auth0.url "https://" = false ∧
    strBeginsWith environment.apiServerUrl "http://" = true ∧
    strFinishesWith environment.apiServerUrl "/" = false ∧
    strBeginsWith environment.auth0.callbackURL "http://" = true ∧
    strFinishesWith environment.auth0.callbackURL "/" = false := by decide
